import Mathlib

/-!
Verification of the 3D-Pong simulation core.

This file gives a shallow embedding of the game's simulation engine and
proves properties of it:

* `ScoreManager` — the scoring state machine
  (src/interactors/score_manager.py),
* `PaddleController` — paddle movement with boundary clamping
  (src/interactors/paddle_controller.py),
* `AIController` — the predictive computer opponent
  (src/interactors/ai_controller.py),
* `BallController` — sub-stepped ball kinematics, paddle and wall
  collision resolution (src/interactors/ball_controller.py),
* the game-level reset of `KeyPressInteractorStyle`
  (src/interactors/interactor.py).

Numeric state uses `ℚ` where the code is pure arithmetic and comparisons,
and `ℝ` where the code uses trigonometry and square roots (the ball bounce
physics).  Python's `random` draws are passed in explicitly as oracle
arguments, and the notification callbacks are modelled as boolean outputs.
-/

namespace Pong

/-! ### Score manager (src/interactors/score_manager.py) -/

/-- State owned by `ScoreManager`: the two counters, the win threshold and
the game-over flag.  The threshold is an integer because Python callers may
pass any `int`. -/
structure ScoreState where
  score1 : ℕ
  score2 : ℕ
  win_score : ℤ
  game_over : Bool
deriving DecidableEq

namespace ScoreManager

/-- Default win threshold (`ScoreManager.DEFAULT_WIN_SCORE`). -/
def DEFAULT_WIN_SCORE : ℤ := 11

/-- State built by `ScoreManager.__init__`. -/
def init (win_score : ℤ) : ScoreState :=
  { score1 := 0, score2 := 0, win_score := win_score, game_over := false }

/-- Embeds `ScoreManager._check_win_condition`.  Returns the updated state
together with a flag recording whether the `on_game_over` callback was
invoked on this call. -/
def check_win_condition (s : ScoreState) : ScoreState × Bool :=
  let winner : Option ℤ :=
    if (s.score1 : ℤ) ≥ s.win_score then some 1
    else if (s.score2 : ℤ) ≥ s.win_score then some 2
    else none
  match winner with
  | some _ => ({ s with game_over := true }, true)
  | none => (s, false)

/-- Embeds `ScoreManager.score_point`.  The boolean output records whether
the `on_game_over` callback fired during this call. -/
def score_point (player : ℤ) (s : ScoreState) : ScoreState × Bool :=
  if s.game_over then (s, false)
  else
    let s1 :=
      if player = 1 then { s with score1 := s.score1 + 1 }
      else { s with score2 := s.score2 + 1 }
    check_win_condition s1

/-- Embeds `ScoreManager.reset`. -/
def reset (s : ScoreState) : ScoreState :=
  { s with score1 := 0, score2 := 0, game_over := false }

/-- Embeds `ScoreManager.get_winner`. -/
def get_winner (s : ScoreState) : Option ℤ :=
  if (s.score1 : ℤ) ≥ s.win_score then some 1
  else if (s.score2 : ℤ) ≥ s.win_score then some 2
  else none

/-- Embeds `ScoreManager.set_win_score`. -/
def set_win_score (w : ℤ) (s : ScoreState) : ScoreState :=
  { s with win_score := max 1 w }

/-- Runs a sequence of `score_point` calls, counting how many of them fired
the `on_game_over` callback. -/
def run_points : List ℤ → ScoreState → ScoreState × ℕ
  | [], s => (s, 0)
  | p :: ps, s =>
    let r := score_point p s
    let rest := run_points ps r.1
    (rest.1, (if r.2 then 1 else 0) + rest.2)

/-- States reachable through the full public `ScoreManager` API:
construction, `score_point`, `reset` and `set_win_score`. -/
inductive Reachable : ScoreState → Prop
  | init (w : ℤ) : Reachable (init w)
  | score (p : ℤ) {s : ScoreState} : Reachable s → Reachable (score_point p s).1
  | reset {s : ScoreState} : Reachable s → Reachable (reset s)
  | set_win (w : ℤ) {s : ScoreState} : Reachable s → Reachable (set_win_score w s)

/-- States reachable without `set_win_score`, starting from a positive win
threshold. -/
inductive ReachableNoSet : ScoreState → Prop
  | init (w : ℤ) (hw : 1 ≤ w) : ReachableNoSet (init w)
  | score (p : ℤ) {s : ScoreState} :
      ReachableNoSet s → ReachableNoSet (score_point p s).1
  | reset {s : ScoreState} : ReachableNoSet s → ReachableNoSet (reset s)

end ScoreManager

/-! ### Paddle controller (src/interactors/paddle_controller.py) -/

namespace PaddleController

/-- Class constant `PaddleController.BOUNDARY_TOP`. -/
def BOUNDARY_TOP : ℚ := 1

/-- Class constant `PaddleController.BOUNDARY_BOTTOM`. -/
def BOUNDARY_BOTTOM : ℚ := -1

/-- Class constant `PaddleController.MOVE_SPEED`. -/
def MOVE_SPEED : ℚ := 0.1

/-- Positions of the two paddle actors (`(x, y)`; the `z` coordinate is
always written back as `0` and never read). -/
structure Paddles where
  left : ℚ × ℚ
  right : ℚ × ℚ
deriving DecidableEq

/-- Embeds `PaddleController._clamp_position`. -/
def clamp_position (paddle_y_length y_position : ℚ) : ℚ :=
  let half_paddle := paddle_y_length / 2
  let min_y := BOUNDARY_BOTTOM + half_paddle
  let max_y := BOUNDARY_TOP - half_paddle
  max min_y (min max_y y_position)

/-- Embeds `PaddleController.move_paddles`: a recognized key adds
`MOVE_SPEED` to the named paddle's `y` and clamps; any other key writes the
positions back unchanged. -/
def move_paddles (paddle_y_length : ℚ) (key : String) (st : Paddles) : Paddles :=
  if key = "Up" then
    { st with right := (st.right.1, clamp_position paddle_y_length (st.right.2 + MOVE_SPEED)) }
  else if key = "Down" then
    { st with right := (st.right.1, clamp_position paddle_y_length (st.right.2 - MOVE_SPEED)) }
  else if key = "w" then
    { st with left := (st.left.1, clamp_position paddle_y_length (st.left.2 + MOVE_SPEED)) }
  else if key = "s" then
    { st with left := (st.left.1, clamp_position paddle_y_length (st.left.2 - MOVE_SPEED)) }
  else st

/-- Embeds `PaddleController.reset_positions`. -/
def reset_positions (st : Paddles) : Paddles :=
  { left := (st.left.1, 0), right := (st.right.1, 0) }

/-- The paddle boundary invariant from the spec: a paddle's `y` stays in
`[bottom + half_height, top - half_height]`. -/
def inYBounds (paddle_y_length y : ℚ) : Prop :=
  BOUNDARY_BOTTOM + paddle_y_length / 2 ≤ y ∧ y ≤ BOUNDARY_TOP - paddle_y_length / 2

end PaddleController

/-! ### AI controller (src/interactors/ai_controller.py) -/

namespace AIController

/-- One entry of `AIController.DIFFICULTY_SETTINGS`. -/
structure AISettings where
  reaction_delay : ℕ
  speed : ℚ
  accuracy : ℚ
  prediction_error : ℚ
deriving DecidableEq

/-- The `"easy"` difficulty profile. -/
def EASY : AISettings :=
  { reaction_delay := 15, speed := 0.03, accuracy := 0.7, prediction_error := 0.15 }

/-- The `"medium"` difficulty profile. -/
def MEDIUM : AISettings :=
  { reaction_delay := 8, speed := 0.05, accuracy := 0.85, prediction_error := 0.08 }

/-- The `"hard"` difficulty profile. -/
def HARD : AISettings :=
  { reaction_delay := 3, speed := 0.08, accuracy := 0.95, prediction_error := 0.03 }

/-- Mutable state of `AIController`: the frame counter, the cached target,
the cached prediction offset, and the controlled paddle's position. -/
structure AIState where
  frame_counter : ℕ
  target_y : ℚ
  prediction_offset : ℚ
  paddle : ℚ × ℚ
deriving DecidableEq

/-- Oracle for the two `random.random()` draws a single `update` call may
make (accuracy check and prediction error). -/
structure AIRand where
  accuracy_roll : ℚ
  error_roll : ℚ
deriving DecidableEq

/-- Embeds `AIController._clamp_position` (`boundary_top = 1`,
`boundary_bottom = -1`). -/
def clamp_position (paddle_y_length y_position : ℚ) : ℚ :=
  let half_paddle := paddle_y_length / 2
  let min_y := -1 + half_paddle
  let max_y := 1 - half_paddle
  max min_y (min max_y y_position)

/-- Embeds the wall-bounce `while` loop of `AIController._calculate_target`:
repeatedly reflect the predicted `y` at the arena boundary until it lies in
`[-1, 1]`. -/
def fold_into_arena (y : ℚ) : ℚ :=
  if y < -1 then fold_into_arena (-2 - y)
  else if 1 < y then fold_into_arena (2 - y)
  else y
termination_by ⌈|y|⌉₊
decreasing_by
  · rename_i h
    have hy : |y| = -y := abs_of_neg (by linarith)
    rcases le_or_lt y (-3) with h3 | h3
    · have e1 : |(-2 : ℚ) - y| = -y - 2 := by
        rw [abs_of_nonneg (by linarith)]
        ring
      rw [e1, hy]
      have h2le : (2 : ℕ) ≤ ⌈-y⌉₊ := by
        have : 1 < ⌈-y⌉₊ := by
          rw [Nat.lt_ceil]
          push_cast
          linarith
        omega
      have hstep : ⌈-y - 2⌉₊ ≤ ⌈-y⌉₊ - 2 := by
        rw [Nat.ceil_le, Nat.cast_sub h2le]
        have := Nat.le_ceil (-y)
        push_cast
        linarith
      omega
    · have e1 : |(-2 : ℚ) - y| ≤ 1 := by
        rw [abs_le]
        constructor <;> linarith
      have hc : ⌈|(-2 : ℚ) - y|⌉₊ ≤ 1 := by
        rw [Nat.ceil_le]
        exact_mod_cast e1
      have hc2 : 1 < ⌈|y|⌉₊ := by
        rw [Nat.lt_ceil, hy]
        push_cast
        linarith
      omega
  · rename_i h h2
    have hy : |y| = y := abs_of_pos (by linarith)
    rcases le_or_lt 3 y with h3 | h3
    · have e1 : |(2 : ℚ) - y| = y - 2 := by
        rw [abs_of_nonpos (by linarith)]
        ring
      rw [e1, hy]
      have h2le : (2 : ℕ) ≤ ⌈y⌉₊ := by
        have : 1 < ⌈y⌉₊ := by
          rw [Nat.lt_ceil]
          push_cast
          linarith
        omega
      have hstep : ⌈y - 2⌉₊ ≤ ⌈y⌉₊ - 2 := by
        rw [Nat.ceil_le, Nat.cast_sub h2le]
        have := Nat.le_ceil y
        push_cast
        linarith
      omega
    · have e1 : |(2 : ℚ) - y| ≤ 1 := by
        rw [abs_le]
        constructor <;> linarith
      have hc : ⌈|(2 : ℚ) - y|⌉₊ ≤ 1 := by
        rw [Nat.ceil_le]
        exact_mod_cast e1
      have hc2 : 1 < ⌈|y|⌉₊ := by
        rw [Nat.lt_ceil, hy]
        push_cast
        linarith
      omega

/-- Embeds `AIController._calculate_target`.  Returns the new `target_y`
and `prediction_offset`. -/
def calculate_target (settings : AISettings) (paddle_x : ℚ)
    (ball_pos ball_dir : ℚ × ℚ) (error_roll : ℚ) : ℚ × ℚ :=
  let time_to_reach :=
    if ball_dir.1 ≠ 0 then (paddle_x - ball_pos.1) / ball_dir.1 else 0
  let predicted_y := fold_into_arena (ball_pos.2 + ball_dir.2 * time_to_reach)
  let prediction_offset := (error_roll - 0.5) * 2 * settings.prediction_error
  (predicted_y + prediction_offset, prediction_offset)

/-- Embeds `AIController._move_toward_target`. -/
def move_toward_target (settings : AISettings) (paddle_y_length target_y : ℚ)
    (paddle : ℚ × ℚ) : ℚ × ℚ :=
  let diff := target_y - paddle.2
  let speed := settings.speed
  let new_y :=
    if |diff| > speed then paddle.2 + (if diff > 0 then speed else -speed)
    else target_y
  (paddle.1, clamp_position paddle_y_length new_y)

/-- Embeds `AIController._move_toward_center`. -/
def move_toward_center (settings : AISettings) (paddle_y_length : ℚ)
    (paddle : ℚ × ℚ) : ℚ × ℚ :=
  let speed := settings.speed * 0.5
  let diff := 0 - paddle.2
  let new_y :=
    if |diff| > speed then paddle.2 + (if diff > 0 then speed else -speed)
    else 0
  (paddle.1, clamp_position paddle_y_length new_y)

/-- Embeds `AIController.update`. -/
def update (settings : AISettings) (paddle_y_length : ℚ)
    (ball_pos ball_dir : ℚ × ℚ) (rnd : AIRand) (st : AIState) : AIState :=
  let fc := st.frame_counter + 1
  if fc % settings.reaction_delay ≠ 0 then { st with frame_counter := fc }
  else if ball_dir.1 > 0 then
    let t := calculate_target settings st.paddle.1 ball_pos ball_dir rnd.error_roll
    let st1 := { st with frame_counter := fc, target_y := t.1, prediction_offset := t.2 }
    if rnd.accuracy_roll < settings.accuracy then
      { st1 with paddle := move_toward_target settings paddle_y_length st1.target_y st1.paddle }
    else st1
  else
    { st with frame_counter := fc,
              paddle := move_toward_center settings paddle_y_length st.paddle }

/-- Per-tick inputs to one `update` call: ball position, ball direction and
the random draws. -/
structure AIInput where
  ball_pos : ℚ × ℚ
  ball_dir : ℚ × ℚ
  rnd : AIRand
deriving DecidableEq

/-- Runs a sequence of `update` calls. -/
def run_updates (settings : AISettings) (paddle_y_length : ℚ) :
    List AIInput → AIState → AIState
  | [], st => st
  | i :: is, st =>
      run_updates settings paddle_y_length is
        (update settings paddle_y_length i.ball_pos i.ball_dir i.rnd st)

end AIController

/-! ### Ball controller (src/interactors/ball_controller.py)

The ball physics uses `math.sqrt`, `math.cos` and `math.sin`, so this part
of the embedding lives in `ℝ` and is noncomputable.  Collision predicates
compare reals, hence the classical `if` conditions. -/

namespace BallController

/-- Class constant `BallController.DEFAULT_DIRECTION` (the `z` component is
always `0` and is dropped). -/
def DEFAULT_DIRECTION : ℝ × ℝ := (0.01, 0.01)

/-- Class constant `BallController.SUB_STEPS`. -/
def SUB_STEPS : ℤ := 10

/-- Class constant `BallController.MAX_ANGLE` (60 degrees). -/
noncomputable def MAX_ANGLE : ℝ := Real.pi / 3

/-- Class constant `BallController.MIN_SPEED`. -/
def MIN_SPEED : ℝ := 0.01

/-- Class constant `BallController.MAX_SPEED`. -/
def MAX_SPEED : ℝ := 0.08

/-- Configuration values the ball controller reads from `game_config`. -/
structure BallCfg where
  ball_radius : ℝ
  paddle_y_length : ℝ
  speed_increase_interval : ℕ
  speed_multiplier : ℝ

/-- Data threaded through one sub-step's collision checks: the proposed new
position (mutated in place by the Python code), the direction, the rally
counters and the score state. -/
structure StepData where
  np : ℝ × ℝ
  dir : ℝ × ℝ
  rally_count : ℕ
  max_rally : ℕ
  score : ScoreState

/-- Combined state of the simulation: everything `BallController`,
`PaddleController`, `ScoreManager` and the interactor own.  Paddle
positions are read by the ball controller and written by the paddle
controller; `paused` belongs to `KeyPressInteractorStyle`. -/
structure SimState where
  pos : ℝ × ℝ
  dir : ℝ × ℝ
  time_elapsed : ℕ
  rally_count : ℕ
  max_rally : ℕ
  paddle1 : ℝ × ℝ
  paddle2 : ℝ × ℝ
  score : ScoreState
  paused : Bool

/-- Embeds `BallController._apply_paddle_bounce`: returns the adjusted
position and the remapped direction. -/
noncomputable def apply_paddle_bounce (cfg : BallCfg) (new_position paddle_pos dir : ℝ × ℝ)
    (is_left_paddle : Bool) : (ℝ × ℝ) × (ℝ × ℝ) :=
  let relative_hit0 := (new_position.2 - paddle_pos.2) / (cfg.paddle_y_length / 2)
  let relative_hit := max (-1) (min 1 relative_hit0)
  let bounce_angle := relative_hit * MAX_ANGLE
  let current_speed := min (Real.sqrt (dir.1 ^ 2 + dir.2 ^ 2)) MAX_SPEED
  if is_left_paddle then
    let overlap := -0.89 - (new_position.1 - cfg.ball_radius)
    ((new_position.1 + 2 * overlap, new_position.2),
     (current_speed * Real.cos bounce_angle, current_speed * Real.sin bounce_angle))
  else
    let overlap := (new_position.1 + cfg.ball_radius) - 0.89
    ((new_position.1 - 2 * overlap, new_position.2),
     (-(current_speed * Real.cos bounce_angle), current_speed * Real.sin bounce_angle))

section
open scoped Classical

/-- Embeds `BallController.check_paddle_collision` (the callback
`on_paddle_hit` only feeds cosmetic effects and is dropped). -/
noncomputable def check_paddle_collision (cfg : BallCfg) (paddle1_pos paddle2_pos : ℝ × ℝ)
    (d : StepData) : StepData :=
  if (-0.9 ≤ d.np.1 - cfg.ball_radius ∧ d.np.1 - cfg.ball_radius ≤ -0.89) ∧
      (paddle1_pos.2 - cfg.paddle_y_length / 2 ≤ d.np.2 ∧
        d.np.2 ≤ paddle1_pos.2 + cfg.paddle_y_length / 2) ∧
      d.dir.1 < 0 then
    let b := apply_paddle_bounce cfg d.np paddle1_pos d.dir true
    { d with np := b.1, dir := b.2, rally_count := d.rally_count + 1 }
  else if (0.89 ≤ d.np.1 + cfg.ball_radius ∧ d.np.1 + cfg.ball_radius ≤ 0.9) ∧
      (paddle2_pos.2 - cfg.paddle_y_length / 2 ≤ d.np.2 ∧
        d.np.2 ≤ paddle2_pos.2 + cfg.paddle_y_length / 2) ∧
      d.dir.1 > 0 then
    let b := apply_paddle_bounce cfg d.np paddle2_pos d.dir false
    { d with np := b.1, dir := b.2, rally_count := d.rally_count + 1 }
  else d

/-- Embeds `BallController._handle_score` applied to a `StepData`. -/
def handle_score (player : ℤ) (d : StepData) : StepData :=
  { d with max_rally := if d.rally_count > d.max_rally then d.rally_count else d.max_rally,
           rally_count := 0,
           score := (ScoreManager.score_point player d.score).1 }

/-- Embeds `BallController.check_wall_collision`: clamp and flip at the
top/bottom walls, then clamp, flip and score at the left/right walls. -/
noncomputable def check_wall_collision (cfg : BallCfg) (d : StepData) : StepData :=
  let r := cfg.ball_radius
  let d1 :=
    if d.np.2 - r < -1 then
      { d with np := (d.np.1, -1 + r), dir := (d.dir.1, -d.dir.2) }
    else if d.np.2 + r > 1 then
      { d with np := (d.np.1, 1 - r), dir := (d.dir.1, -d.dir.2) }
    else d
  if d1.np.1 - r < -1 then
    handle_score 2 { d1 with np := (-1 + r, d1.np.2), dir := (-d1.dir.1, d1.dir.2) }
  else if d1.np.1 + r > 1 then
    handle_score 1 { d1 with np := (1 - r, d1.np.2), dir := (-d1.dir.1, d1.dir.2) }
  else d1

end

/-- Embeds `BallController.check_collisions`. -/
noncomputable def check_collisions (cfg : BallCfg) (paddle1_pos paddle2_pos : ℝ × ℝ)
    (d : StepData) : StepData :=
  check_wall_collision cfg (check_paddle_collision cfg paddle1_pos paddle2_pos d)

/-- Embeds `BallController.calculate_new_position`. -/
noncomputable def calculate_new_position (s : SimState) (step_fraction : ℝ) : ℝ × ℝ :=
  (s.pos.1 + s.dir.1 * step_fraction, s.pos.2 + s.dir.2 * step_fraction)

/-- One iteration of the sub-step loop in `BallController.execute`:
propose a position, resolve collisions, commit. -/
noncomputable def sub_step (cfg : BallCfg) (step_fraction : ℝ) (s : SimState) : SimState :=
  let new_position := calculate_new_position s step_fraction
  let d := check_collisions cfg s.paddle1 s.paddle2
    { np := new_position, dir := s.dir, rally_count := s.rally_count,
      max_rally := s.max_rally, score := s.score }
  { s with pos := d.np, dir := d.dir, rally_count := d.rally_count,
           max_rally := d.max_rally, score := d.score }

/-- Embeds `BallController.increase_ball_speed`. -/
def increase_ball_speed (cfg : BallCfg) (s : SimState) : SimState :=
  { s with dir := (s.dir.1 * cfg.speed_multiplier, s.dir.2 * cfg.speed_multiplier) }

/-- Embeds `BallController.execute` with the sub-step count as an explicit
parameter (the Python class attribute `SUB_STEPS`): increment the tick
counter, apply a scheduled speed increase, then run
`max sub_steps 0` sub-steps of size `1 / sub_steps` (Python's
`range(n)` is empty for `n <= 0`). -/
noncomputable def execute_with (cfg : BallCfg) (sub_steps : ℤ) (s : SimState) : SimState :=
  let s1 := { s with time_elapsed := s.time_elapsed + 1 }
  let s2 :=
    if s1.time_elapsed % cfg.speed_increase_interval = 0 then increase_ball_speed cfg s1
    else s1
  (sub_step cfg (1 / (sub_steps : ℝ)))^[sub_steps.toNat] s2

/-- Embeds `BallController.execute` with the class constant
`SUB_STEPS = 10`. -/
noncomputable def execute (cfg : BallCfg) (s : SimState) : SimState :=
  execute_with cfg SUB_STEPS s

/-- Embeds `BallController.reset` with the two `random` draws passed in:
`angle` is `random.uniform(-pi/4, pi/4)` and `coin` is
`random.random() > 0.5`. -/
noncomputable def reset (angle : ℝ) (coin : Bool) (s : SimState) : SimState :=
  { s with pos := (0, 0),
           dir := ((if coin then 0.01 else -0.01), 0.01 * Real.sin angle),
           time_elapsed := 0,
           rally_count := 0 }

/-- Containment predicate of the spec: both coordinates stay within
`[-1 + radius, 1 - radius]`. -/
def in_bounds (r : ℝ) (p : ℝ × ℝ) : Prop :=
  (-1 + r ≤ p.1 ∧ p.1 ≤ 1 - r) ∧ (-1 + r ≤ p.2 ∧ p.2 ≤ 1 - r)

end BallController

/-! ### Game-level reset (src/interactors/interactor.py) -/

namespace Game

/-- The game state right after `KeyPressInteractorStyle.__init__` and scene
construction: ball at the origin with `DEFAULT_DIRECTION`, paddles at
`(-0.9, 0)` and `(0.9, 0)`, zero scores, and `paused = True` (the game
starts paused on the menu). -/
def init_state (win_score : ℤ) : BallController.SimState :=
  { pos := (0, 0), dir := BallController.DEFAULT_DIRECTION,
    time_elapsed := 0, rally_count := 0, max_rally := 0,
    paddle1 := (-0.9, 0), paddle2 := (0.9, 0),
    score := ScoreManager.init win_score, paused := true }

/-- Embeds `KeyPressInteractorStyle.reset`: reset the ball (with its random
draws), re-center both paddles, reset the scores, and unpause. -/
noncomputable def reset (angle : ℝ) (coin : Bool) (s : BallController.SimState) :
    BallController.SimState :=
  let s1 := BallController.reset angle coin s
  let s2 := { s1 with paddle1 := (s1.paddle1.1, 0), paddle2 := (s1.paddle2.1, 0) }
  let s3 := { s2 with score := ScoreManager.reset s2.score }
  { s3 with paused := false }

end Game

/-! ### Concrete instances used in witnesses and counterexamples -/

/-- A game-over state with a reachable shape: three points for player 1 at
threshold 3. -/
def frozen_state : ScoreState := { score1 := 3, score2 := 0, win_score := 3, game_over := true }

/-- The state reached by scoring three points for player 1 at threshold 3
and then raising the threshold to 5 through `set_win_score`. -/
def shrunk_threshold_state : ScoreState :=
  ScoreManager.set_win_score 5
    (ScoreManager.score_point 1
      (ScoreManager.score_point 1
        (ScoreManager.score_point 1 (ScoreManager.init 3)).1).1).1

/-- A concrete paddle configuration: paddles at their arena positions. -/
def demo_paddles : PaddleController.Paddles :=
  { left := (-9/10, 0), right := (9/10, 0) }

/-- The ball configuration induced by the repository's default config
(`src/config/config.py`): radius `0.02`, paddle length `0.4`, speed-up
every 500 ticks by factor `1.1`. -/
def default_cfg : BallController.BallCfg :=
  { ball_radius := 0.02, paddle_y_length := 0.4,
    speed_increase_interval := 500, speed_multiplier := 1.1 }

/-- A concrete simulation state with the ball at the origin. -/
noncomputable def demo_sim : BallController.SimState :=
  { pos := (0, 0), dir := (0.01, 0.01), time_elapsed := 0, rally_count := 0,
    max_rally := 0, paddle1 := (-9/10, 0), paddle2 := (9/10, 0),
    score := ScoreManager.init 11, paused := false }

/-- A concrete sub-step datum: ball just inside the left collision band,
level with the left paddle, moving right (receding). -/
noncomputable def demo_step : BallController.StepData :=
  { np := (-0.875, 0), dir := (0.01, 0), rally_count := 0, max_rally := 0,
    score := ScoreManager.init 11 }

/-- A fresh AI state: zero frame counter, paddle at `(0.9, 0.5)`. -/
def demo_ai : AIController.AIState :=
  { frame_counter := 0, target_y := 0, prediction_offset := 0, paddle := (9/10, 1/2) }

/-- An AI input with the ball moving away from the AI paddle and neutral
random draws. -/
def away_input : AIController.AIInput :=
  { ball_pos := (0, 0), ball_dir := (-1/100, 0), rnd := { accuracy_roll := 0, error_roll := 1/2 } }

/-!
## Theorems

Helper lemmas first, then one main theorem per claim, each with its
witness or counterexample.
-/

/-! ### Score manager lemmas -/

theorem score_point_frozen (p : ℤ) (s : ScoreState) (h : s.game_over = true) :
    ScoreManager.score_point p s = (s, false) := by
  simp [ScoreManager.score_point, h]

theorem check_win_condition_scores (s : ScoreState) :
    (ScoreManager.check_win_condition s).1.score1 = s.score1 ∧
      (ScoreManager.check_win_condition s).1.score2 = s.score2 ∧
      (ScoreManager.check_win_condition s).1.win_score = s.win_score := by
  unfold ScoreManager.check_win_condition
  split_ifs <;> simp

theorem score_point_fired_iff (p : ℤ) (s : ScoreState) :
    (ScoreManager.score_point p s).2 = true ↔
      (s.game_over = false ∧ (ScoreManager.score_point p s).1.game_over = true) := by
  by_cases h : s.game_over
  · simp [ScoreManager.score_point, h]
  · have hf : s.game_over = false := by simpa using h
    simp only [ScoreManager.score_point, hf, Bool.false_eq_true, if_false]
    unfold ScoreManager.check_win_condition
    by_cases hp : p = 1 <;> simp [hp] <;> split_ifs <;> simp [hf]

theorem run_points_frozen (ps : List ℤ) (s : ScoreState) (h : s.game_over = true) :
    ScoreManager.run_points ps s = (s, 0) := by
  induction ps with
  | nil => rfl
  | cons p ps ih =>
      simp [ScoreManager.run_points, score_point_frozen p s h, ih]

theorem run_points_count (ps : List ℤ) : ∀ s : ScoreState, s.game_over = false →
    (ScoreManager.run_points ps s).2 =
      if (ScoreManager.run_points ps s).1.game_over then 1 else 0 := by
  induction ps with
  | nil => intro s h; simp [ScoreManager.run_points, h]
  | cons p ps ih =>
      intro s h
      by_cases hf : (ScoreManager.score_point p s).2 = true
      · have hg : (ScoreManager.score_point p s).1.game_over = true :=
          ((score_point_fired_iff p s).mp hf).2
        simp [ScoreManager.run_points, hf, run_points_frozen ps _ hg, hg]
      · have hg : (ScoreManager.score_point p s).1.game_over = false := by
          rcases Bool.eq_false_or_eq_true (ScoreManager.score_point p s).1.game_over with hgt | hgf
          · exact absurd ((score_point_fired_iff p s).mpr ⟨h, hgt⟩) hf
          · exact hgf
        have hb : (ScoreManager.score_point p s).2 = false := by simpa using hf
        simp [ScoreManager.run_points, hb, ih _ hg]

/-- C2: once `game_over` holds, `score_point` leaves the state (both
counters included) unchanged and fires no notification; the `on_game_over`
notification fires exactly on the call that flips `game_over`, and along
any sequence of `score_point` calls from a live state it fires exactly once
if the threshold is reached and never otherwise. -/
theorem score_point_frozen_and_single_game_over (s : ScoreState) (p : ℤ) (ps : List ℤ) :
    (s.game_over = true → ScoreManager.score_point p s = (s, false)) ∧
    ((ScoreManager.score_point p s).2 = true ↔
      (s.game_over = false ∧ (ScoreManager.score_point p s).1.game_over = true)) ∧
    (s.game_over = false → (ScoreManager.run_points ps s).2 =
      if (ScoreManager.run_points ps s).1.game_over then 1 else 0) := by
  exact ⟨fun h => score_point_frozen p s h, score_point_fired_iff p s,
    fun h => run_points_count ps s h⟩

/-- Witness for C2: a concrete frozen call and a concrete 3-point match at
threshold 3 firing the notification exactly once. -/
theorem score_point_frozen_and_single_game_over_witness :
    ScoreManager.score_point 1 frozen_state = (frozen_state, false) ∧
      (ScoreManager.run_points [1, 1, 1] (ScoreManager.init 3)).2 = 1 := by
  refine ⟨(score_point_frozen_and_single_game_over frozen_state 1 []).1 (by decide), ?_⟩
  rw [(score_point_frozen_and_single_game_over (ScoreManager.init 3) 1 [1, 1, 1]).2.2 (by decide)]
  decide

/-- C10: when the game is not over, any `player` argument other than `1`
(`0`, negatives, values above `2`, ...) credits the point to player 2's
counter and leaves player 1's counter unchanged. -/
theorem score_point_other_player_credits_player2 (s : ScoreState) (p : ℤ)
    (h : s.game_over = false) (hp : p ≠ 1) :
    (ScoreManager.score_point p s).1.score2 = s.score2 + 1 ∧
      (ScoreManager.score_point p s).1.score1 = s.score1 := by
  have hc := check_win_condition_scores { s with score2 := s.score2 + 1 }
  have hsp : ScoreManager.score_point p s =
      ScoreManager.check_win_condition { s with score2 := s.score2 + 1 } := by
    simp [ScoreManager.score_point, h, hp]
  rw [hsp]
  exact ⟨hc.2.1, hc.1⟩

/-- Witness for C10: `score_point 0` on a fresh state increments player 2's
counter. -/
theorem score_point_other_player_credits_player2_witness :
    (ScoreManager.score_point 0 (ScoreManager.init 11)).1.score2 =
        (ScoreManager.init 11).score2 + 1 ∧
      (ScoreManager.score_point 0 (ScoreManager.init 11)).1.score1 =
        (ScoreManager.init 11).score1 :=
  score_point_other_player_credits_player2 (ScoreManager.init 11) 0 (by decide) (by decide)

theorem get_winner_zero (s : ScoreState) (h1 : s.score1 = 0) (h2 : s.score2 = 0)
    (hw : 1 ≤ s.win_score) : ScoreManager.get_winner s = none := by
  unfold ScoreManager.get_winner
  rw [if_neg (by rw [h1]; push_cast; omega), if_neg (by rw [h2]; push_cast; omega)]

theorem check_win_condition_inv (s : ScoreState) (h : s.game_over = false) :
    ((ScoreManager.check_win_condition s).1.game_over = true ↔
      (ScoreManager.get_winner (ScoreManager.check_win_condition s).1).isSome = true) := by
  unfold ScoreManager.check_win_condition
  split_ifs with h1 h2
  · simp only [ScoreManager.get_winner]
    rw [if_pos h1]
    simp
  · simp only [ScoreManager.get_winner]
    rw [if_neg h1, if_pos h2]
    simp
  · simp only [ScoreManager.get_winner]
    rw [if_neg h1, if_neg h2]
    simp [h]

theorem reachable_no_set_inv (s : ScoreState) (h : ScoreManager.ReachableNoSet s) :
    1 ≤ s.win_score ∧
      (s.game_over = true ↔ (ScoreManager.get_winner s).isSome = true) := by
  induction h with
  | init w hw =>
      have h0 : ScoreManager.get_winner (ScoreManager.init w) = none :=
        get_winner_zero _ rfl rfl hw
      refine ⟨hw, ?_⟩
      rw [h0]
      simp [ScoreManager.init]
  | @score p s hs ih =>
      obtain ⟨hw, hiff⟩ := ih
      by_cases hg : s.game_over
      · rw [score_point_frozen p s hg]
        exact ⟨hw, hiff⟩
      · have hf : s.game_over = false := by simpa using hg
        by_cases hp : p = 1
        · have hsp : ScoreManager.score_point p s =
              ScoreManager.check_win_condition { s with score1 := s.score1 + 1 } := by
            simp [ScoreManager.score_point, hf, hp]
          rw [hsp]
          refine ⟨?_, check_win_condition_inv _ hf⟩
          rw [(check_win_condition_scores _).2.2]
          exact hw
        · have hsp : ScoreManager.score_point p s =
              ScoreManager.check_win_condition { s with score2 := s.score2 + 1 } := by
            simp [ScoreManager.score_point, hf, hp]
          rw [hsp]
          refine ⟨?_, check_win_condition_inv _ hf⟩
          rw [(check_win_condition_scores _).2.2]
          exact hw
  | @reset s hs ih =>
      obtain ⟨hw, _⟩ := ih
      have h0 : ScoreManager.get_winner (ScoreManager.reset s) = none :=
        get_winner_zero _ rfl rfl hw
      refine ⟨hw, ?_⟩
      rw [h0]
      simp [ScoreManager.reset]

/-- C5 counterexample: through the full API (which includes
`set_win_score`) one reaches a state that is `GameOver` while `get_winner`
reports no winner, because `get_winner` re-derives the winner from the
current counters and threshold instead of consulting the state machine. -/
theorem get_winner_reachable_mismatch :
    ScoreManager.Reachable shrunk_threshold_state ∧
      shrunk_threshold_state.game_over = true ∧
      ScoreManager.get_winner shrunk_threshold_state = none := by
  refine ⟨?_, by decide, by decide⟩
  exact ScoreManager.Reachable.set_win 5
    (ScoreManager.Reachable.score 1
      (ScoreManager.Reachable.score 1
        (ScoreManager.Reachable.score 1 (ScoreManager.Reachable.init 3))))

/-- C5 amended: in every state reachable without `set_win_score` from a
positive initial threshold, `get_winner` returns a winner exactly when the
state machine is in `GameOver`, and no winner otherwise. -/
theorem get_winner_iff_game_over (s : ScoreState) (h : ScoreManager.ReachableNoSet s) :
    s.game_over = true ↔ (ScoreManager.get_winner s).isSome = true :=
  (reachable_no_set_inv s h).2

/-- Witness for the amended C5: one winning point at threshold 1. -/
theorem get_winner_iff_game_over_witness :
    (ScoreManager.score_point 1 (ScoreManager.init 1)).1.game_over = true ∧
      (ScoreManager.get_winner (ScoreManager.score_point 1 (ScoreManager.init 1)).1).isSome = true := by
  have h := get_winner_iff_game_over _
    (ScoreManager.ReachableNoSet.score 1 (ScoreManager.ReachableNoSet.init 1 (by decide)))
  exact ⟨by decide, h.mp (by decide)⟩

/-! ### Paddle controller lemmas -/

theorem clamp_position_mem (yLen y : ℚ) (h : yLen ≤ 2) :
    PaddleController.inYBounds yLen (PaddleController.clamp_position yLen y) := by
  unfold PaddleController.inYBounds PaddleController.clamp_position
    PaddleController.BOUNDARY_TOP PaddleController.BOUNDARY_BOTTOM
  constructor
  · exact le_max_left _ _
  · exact max_le (by linarith) (min_le_left _ _)

theorem ai_clamp_position_mem (yLen y : ℚ) (h : yLen ≤ 2) :
    PaddleController.inYBounds yLen (AIController.clamp_position yLen y) := by
  unfold PaddleController.inYBounds AIController.clamp_position
    PaddleController.BOUNDARY_TOP PaddleController.BOUNDARY_BOTTOM
  constructor
  · exact le_max_left _ _
  · exact max_le (by linarith) (min_le_left _ _)

theorem move_paddles_up (yLen : ℚ) (st : PaddleController.Paddles) :
    PaddleController.move_paddles yLen "Up" st =
      { st with right := (st.right.1,
          PaddleController.clamp_position yLen (st.right.2 + PaddleController.MOVE_SPEED)) } := by
  unfold PaddleController.move_paddles
  rw [if_pos rfl]

theorem move_paddles_down (yLen : ℚ) (st : PaddleController.Paddles) :
    PaddleController.move_paddles yLen "Down" st =
      { st with right := (st.right.1,
          PaddleController.clamp_position yLen (st.right.2 - PaddleController.MOVE_SPEED)) } := by
  unfold PaddleController.move_paddles
  rw [if_neg (by decide), if_pos rfl]

theorem move_paddles_w (yLen : ℚ) (st : PaddleController.Paddles) :
    PaddleController.move_paddles yLen "w" st =
      { st with left := (st.left.1,
          PaddleController.clamp_position yLen (st.left.2 + PaddleController.MOVE_SPEED)) } := by
  unfold PaddleController.move_paddles
  rw [if_neg (by decide), if_neg (by decide), if_pos rfl]

theorem move_paddles_s (yLen : ℚ) (st : PaddleController.Paddles) :
    PaddleController.move_paddles yLen "s" st =
      { st with left := (st.left.1,
          PaddleController.clamp_position yLen (st.left.2 - PaddleController.MOVE_SPEED)) } := by
  unfold PaddleController.move_paddles
  rw [if_neg (by decide), if_neg (by decide), if_neg (by decide), if_pos rfl]

theorem move_paddles_other (yLen : ℚ) (key : String) (st : PaddleController.Paddles)
    (h1 : key ≠ "Up") (h2 : key ≠ "Down") (h3 : key ≠ "w") (h4 : key ≠ "s") :
    PaddleController.move_paddles yLen key st = st := by
  unfold PaddleController.move_paddles
  rw [if_neg h1, if_neg h2, if_neg h3, if_neg h4]

/-- C3: each recognized movement key adds the move delta to the named
paddle's `y` and clamps it into
`[bottom + half_height, top - half_height]`, leaving the other paddle
unchanged; any unrecognized key leaves both paddles unchanged (a no-op,
not an error); and the AI's two movement primitives land in the same
clamped range, provided the configured paddle length fits in the arena
(`y_length <= 2`). -/
theorem paddle_moves_clamped (yLen : ℚ) (h : yLen ≤ 2) (st : PaddleController.Paddles)
    (key : String) (settings : AIController.AISettings) (target : ℚ) (paddle : ℚ × ℚ) :
    ((PaddleController.move_paddles yLen "Up" st).right.2 =
        PaddleController.clamp_position yLen (st.right.2 + PaddleController.MOVE_SPEED) ∧
      (PaddleController.move_paddles yLen "Up" st).left = st.left ∧
      PaddleController.inYBounds yLen (PaddleController.move_paddles yLen "Up" st).right.2) ∧
    ((PaddleController.move_paddles yLen "Down" st).right.2 =
        PaddleController.clamp_position yLen (st.right.2 - PaddleController.MOVE_SPEED) ∧
      (PaddleController.move_paddles yLen "Down" st).left = st.left ∧
      PaddleController.inYBounds yLen (PaddleController.move_paddles yLen "Down" st).right.2) ∧
    ((PaddleController.move_paddles yLen "w" st).left.2 =
        PaddleController.clamp_position yLen (st.left.2 + PaddleController.MOVE_SPEED) ∧
      (PaddleController.move_paddles yLen "w" st).right = st.right ∧
      PaddleController.inYBounds yLen (PaddleController.move_paddles yLen "w" st).left.2) ∧
    ((PaddleController.move_paddles yLen "s" st).left.2 =
        PaddleController.clamp_position yLen (st.left.2 - PaddleController.MOVE_SPEED) ∧
      (PaddleController.move_paddles yLen "s" st).right = st.right ∧
      PaddleController.inYBounds yLen (PaddleController.move_paddles yLen "s" st).left.2) ∧
    (key ≠ "Up" → key ≠ "Down" → key ≠ "w" → key ≠ "s" →
      PaddleController.move_paddles yLen key st = st) ∧
    PaddleController.inYBounds yLen
      (AIController.move_toward_target settings yLen target paddle).2 ∧
    PaddleController.inYBounds yLen
      (AIController.move_toward_center settings yLen paddle).2 := by
  refine ⟨?_, ?_, ?_, ?_, ?_, ?_, ?_⟩
  · rw [move_paddles_up]
    exact ⟨rfl, rfl, clamp_position_mem yLen _ h⟩
  · rw [move_paddles_down]
    exact ⟨rfl, rfl, clamp_position_mem yLen _ h⟩
  · rw [move_paddles_w]
    exact ⟨rfl, rfl, clamp_position_mem yLen _ h⟩
  · rw [move_paddles_s]
    exact ⟨rfl, rfl, clamp_position_mem yLen _ h⟩
  · exact fun h1 h2 h3 h4 => move_paddles_other yLen key st h1 h2 h3 h4
  · exact ai_clamp_position_mem yLen _ h
  · exact ai_clamp_position_mem yLen _ h

/-- Witness for C3: the default paddle length `0.4`, a concrete "Up" move
and a concrete unrecognized key. -/
theorem paddle_moves_clamped_witness :
    (PaddleController.move_paddles (2/5) "Up" demo_paddles).right.2 =
        PaddleController.clamp_position (2/5) (demo_paddles.right.2 + PaddleController.MOVE_SPEED) ∧
      PaddleController.move_paddles (2/5) "x" demo_paddles = demo_paddles := by
  have h := paddle_moves_clamped (2/5) (by norm_num) demo_paddles "x" AIController.MEDIUM 0 (0, 0)
  exact ⟨h.1.1, h.2.2.2.2.1 (by decide) (by decide) (by decide) (by decide)⟩

/-! ### Ball controller lemmas -/

theorem handle_score_np (p : ℤ) (d : BallController.StepData) :
    (BallController.handle_score p d).np = d.np := rfl

theorem check_wall_collision_in_bounds (cfg : BallController.BallCfg)
    (h : cfg.ball_radius ≤ 1) (d : BallController.StepData) :
    BallController.in_bounds cfg.ball_radius (BallController.check_wall_collision cfg d).np := by
  unfold BallController.check_wall_collision
  dsimp only
  split_ifs <;>
    (refine ⟨⟨?_, ?_⟩, ?_, ?_⟩ <;> (try simp only [handle_score_np]) <;> simp_all <;> linarith)

theorem check_collisions_in_bounds (cfg : BallController.BallCfg)
    (h : cfg.ball_radius ≤ 1) (p1 p2 : ℝ × ℝ) (d : BallController.StepData) :
    BallController.in_bounds cfg.ball_radius
      (BallController.check_collisions cfg p1 p2 d).np :=
  check_wall_collision_in_bounds cfg h _

theorem sub_step_in_bounds (cfg : BallController.BallCfg) (h : cfg.ball_radius ≤ 1)
    (frac : ℝ) (s : BallController.SimState) :
    BallController.in_bounds cfg.ball_radius (BallController.sub_step cfg frac s).pos :=
  check_collisions_in_bounds cfg h _ _ _

/-- C1: after the wall-collision resolution of any sub-step, the committed
ball position lies in `[-1 + radius, 1 - radius]` on both axes (whenever
the radius itself fits the arena, `radius <= 1`); in particular the
position committed by a full `execute` tick satisfies the same bounds, so
the ball never escapes the arena. -/
theorem ball_never_escapes (cfg : BallController.BallCfg) (h : cfg.ball_radius ≤ 1)
    (s : BallController.SimState) (frac : ℝ) :
    BallController.in_bounds cfg.ball_radius (BallController.sub_step cfg frac s).pos ∧
      BallController.in_bounds cfg.ball_radius (BallController.execute cfg s).pos := by
  refine ⟨sub_step_in_bounds cfg h frac s, ?_⟩
  unfold BallController.execute BallController.execute_with BallController.SUB_STEPS
  rw [show ((10 : ℤ)).toNat = 9 + 1 from rfl, Function.iterate_succ_apply']
  exact sub_step_in_bounds cfg h _ _

/-- Witness for C1: the default configuration (radius `0.02`) and a
concrete state. -/
theorem ball_never_escapes_witness :
    BallController.in_bounds default_cfg.ball_radius
        (BallController.sub_step default_cfg (1/10) demo_sim).pos ∧
      BallController.in_bounds default_cfg.ball_radius
        (BallController.execute default_cfg demo_sim).pos :=
  ball_never_escapes default_cfg (by norm_num [default_cfg]) demo_sim (1/10)

/-- C6: a ball inside a paddle's collision band and within that paddle's
half-height range, but whose horizontal direction points away from the
paddle, does not bounce: `check_paddle_collision` returns position,
direction and rally counter unchanged.  (The radius bound keeps the two
bands disjoint; real radii are far below `0.89`.) -/
theorem no_bounce_when_receding (cfg : BallController.BallCfg) (p1 p2 : ℝ × ℝ)
    (d : BallController.StepData) (hr : cfg.ball_radius < 0.89) :
    (-0.9 ≤ d.np.1 - cfg.ball_radius → d.np.1 - cfg.ball_radius ≤ -0.89 →
      p1.2 - cfg.paddle_y_length / 2 ≤ d.np.2 → d.np.2 ≤ p1.2 + cfg.paddle_y_length / 2 →
      0 ≤ d.dir.1 → BallController.check_paddle_collision cfg p1 p2 d = d) ∧
    (0.89 ≤ d.np.1 + cfg.ball_radius → d.np.1 + cfg.ball_radius ≤ 0.9 →
      p2.2 - cfg.paddle_y_length / 2 ≤ d.np.2 → d.np.2 ≤ p2.2 + cfg.paddle_y_length / 2 →
      d.dir.1 ≤ 0 → BallController.check_paddle_collision cfg p1 p2 d = d) := by
  constructor
  · intro hb1 hb2 _ _ hd
    unfold BallController.check_paddle_collision
    rw [if_neg, if_neg]
    · rintro ⟨⟨hc1, _⟩, _, _⟩
      linarith
    · rintro ⟨_, _, hlt⟩
      linarith
  · intro hb1 hb2 _ _ hd
    unfold BallController.check_paddle_collision
    rw [if_neg, if_neg]
    · rintro ⟨_, _, hgt⟩
      linarith
    · rintro ⟨⟨_, hc2⟩, _, _⟩
      linarith

/-- Witness for C6: radius `0.02`, ball at `x = -0.875` (leading edge at
`-0.895`, inside the left band), level with the left paddle, moving
right. -/
theorem no_bounce_when_receding_witness :
    BallController.check_paddle_collision default_cfg (-9/10, 0) (9/10, 0) demo_step =
      demo_step :=
  (no_bounce_when_receding default_cfg (-9/10, 0) (9/10, 0) demo_step
      (by norm_num [default_cfg])).1
    (by norm_num [default_cfg, demo_step]) (by norm_num [default_cfg, demo_step])
    (by norm_num [default_cfg, demo_step]) (by norm_num [default_cfg, demo_step])
    (by norm_num [demo_step])

/-- C4: the paddle bounce sets the outgoing direction to
`(±speed * cos angle, speed * sin angle)` where `angle` is the hit offset
from the paddle center normalized to `[-1, 1]`, clamped, and scaled by the
60-degree maximum, and `speed` is the pre-collision magnitude capped at
`MAX_SPEED`; a center hit leaves zero vertical component, and an edge hit
leaves vertical magnitude `speed * sin (60°)`. -/
theorem paddle_bounce_angle (cfg : BallController.BallCfg) (np pp dir : ℝ × ℝ)
    (b : Bool) (hy : 0 < cfg.paddle_y_length) :
    ((BallController.apply_paddle_bounce cfg np pp dir b).2 =
      ((if b then
          min (Real.sqrt (dir.1 ^ 2 + dir.2 ^ 2)) BallController.MAX_SPEED *
            Real.cos (max (-1) (min 1 ((np.2 - pp.2) / (cfg.paddle_y_length / 2))) *
              BallController.MAX_ANGLE)
        else
          -(min (Real.sqrt (dir.1 ^ 2 + dir.2 ^ 2)) BallController.MAX_SPEED *
            Real.cos (max (-1) (min 1 ((np.2 - pp.2) / (cfg.paddle_y_length / 2))) *
              BallController.MAX_ANGLE))),
       min (Real.sqrt (dir.1 ^ 2 + dir.2 ^ 2)) BallController.MAX_SPEED *
         Real.sin (max (-1) (min 1 ((np.2 - pp.2) / (cfg.paddle_y_length / 2))) *
           BallController.MAX_ANGLE))) ∧
    (np.2 = pp.2 → (BallController.apply_paddle_bounce cfg np pp dir b).2.2 = 0) ∧
    (np.2 = pp.2 + cfg.paddle_y_length / 2 →
      |(BallController.apply_paddle_bounce cfg np pp dir b).2.2| =
        min (Real.sqrt (dir.1 ^ 2 + dir.2 ^ 2)) BallController.MAX_SPEED *
          Real.sin (Real.pi / 3)) := by
  refine ⟨?_, ?_, ?_⟩
  · cases b <;> rfl
  · intro h
    have h0 : np.2 - pp.2 = 0 := by rw [h]; ring
    cases b <;>
      norm_num [BallController.apply_paddle_bounce, h0, BallController.MAX_ANGLE]
  · intro h
    have hne : cfg.paddle_y_length / 2 ≠ 0 := by positivity
    have h1 : (np.2 - pp.2) / (cfg.paddle_y_length / 2) = 1 := by
      rw [h]
      field_simp
      ring
    have hspeed : 0 ≤ min (Real.sqrt (dir.1 ^ 2 + dir.2 ^ 2)) BallController.MAX_SPEED :=
      le_min (Real.sqrt_nonneg _) (by norm_num [BallController.MAX_SPEED])
    have hsin : 0 ≤ Real.sin (Real.pi / 3) :=
      Real.sin_nonneg_of_nonneg_of_le_pi (by positivity) (by linarith [Real.pi_pos])
    cases b <;>
      norm_num [BallController.apply_paddle_bounce, h1, BallController.MAX_ANGLE,
        BallController.MAX_SPEED, abs_of_nonneg (mul_nonneg hspeed hsin)]

/-- Witness for C4: the default paddle length, a center hit and an edge hit
on the left paddle. -/
theorem paddle_bounce_angle_witness :
    (BallController.apply_paddle_bounce default_cfg (-0.88, 0) (-9/10, 0) (0.01, 0) true).2.2 = 0 ∧
      |(BallController.apply_paddle_bounce default_cfg (-0.88, 0.2) (-9/10, 0) (0.01, 0) true).2.2| =
        min (Real.sqrt ((0.01 : ℝ) ^ 2 + 0 ^ 2)) BallController.MAX_SPEED *
          Real.sin (Real.pi / 3) := by
  constructor
  · exact (paddle_bounce_angle default_cfg (-0.88, 0) (-9/10, 0) (0.01, 0) true
      (by norm_num [default_cfg])).2.1 (by norm_num)
  · exact (paddle_bounce_angle default_cfg (-0.88, 0.2) (-9/10, 0) (0.01, 0) true
      (by norm_num [default_cfg])).2.2 (by norm_num [default_cfg])

/-- C7 counterexample: with a zero sub-step count, `execute` performs no
sub-steps at all — the ball stays where it was — rather than falling back
to a single whole-tick advance (which from `demo_sim` would move the ball
to `(0.01, 0.01)`). -/
theorem execute_zero_substeps_no_fallback :
    (BallController.execute_with default_cfg 0 demo_sim).pos = demo_sim.pos ∧
      demo_sim.pos ≠ (demo_sim.pos.1 + demo_sim.dir.1, demo_sim.pos.2 + demo_sim.dir.2) := by
  constructor
  · unfold BallController.execute_with
    norm_num [demo_sim, default_cfg, BallController.increase_ball_speed]
  · intro heq
    have h1 := congrArg Prod.fst heq
    norm_num [demo_sim] at h1

/-- C7 amended: a zero or negative sub-step count makes the tick run its
loop zero times: the ball position, rally counter and score are unchanged
and no error is raised (only the tick counter advances and a scheduled
speed increase still applies); there is no single whole-tick fallback
step. -/
theorem execute_nonpos_substeps (cfg : BallController.BallCfg) (n : ℤ) (hn : n ≤ 0)
    (s : BallController.SimState) :
    (BallController.execute_with cfg n s).pos = s.pos ∧
      (BallController.execute_with cfg n s).rally_count = s.rally_count ∧
      (BallController.execute_with cfg n s).score = s.score ∧
      (BallController.execute_with cfg n s).time_elapsed = s.time_elapsed + 1 := by
  have h0 : n.toNat = 0 := Int.toNat_of_nonpos hn
  unfold BallController.execute_with
  rw [h0]
  simp only [Function.iterate_zero_apply]
  split_ifs <;> simp [BallController.increase_ball_speed]

/-- Witness for the amended C7: sub-step count `0` on a concrete state. -/
theorem execute_nonpos_substeps_witness :
    (BallController.execute_with default_cfg 0 demo_sim).pos = demo_sim.pos ∧
      (BallController.execute_with default_cfg 0 demo_sim).time_elapsed =
        demo_sim.time_elapsed + 1 := by
  have h := execute_nonpos_substeps default_cfg 0 (by decide) demo_sim
  exact ⟨h.1, h.2.2.2⟩

/-! ### Game-level reset -/

/-- C8 counterexample: resetting from the initial state is not a no-op.
Even for a concrete draw of the random inputs (`angle = 0`, positive
coin), the ball's direction changes — `reset` re-randomizes it, and its
vertical component (here `0`) can never equal the initial `0.01` — and the
pause flag flips from the initial `true` to `false`. -/
theorem game_reset_not_noop :
    (Game.reset 0 true (Game.init_state 11)).dir.2 = 0 ∧
      (Game.init_state 11).dir.2 = 0.01 ∧
      (Game.reset 0 true (Game.init_state 11)).paused = false ∧
      (Game.init_state 11).paused = true ∧
      Game.reset 0 true (Game.init_state 11) ≠ Game.init_state 11 := by
  refine ⟨?_, rfl, rfl, rfl, ?_⟩
  · show (0.01 : ℝ) * Real.sin 0 = 0
    simp
  · intro heq
    have h1 := congrArg BallController.SimState.paused heq
    simp [Game.reset, Game.init_state, BallController.reset] at h1

/-- C8 amended: resetting from the initial state restores the ball
position, both paddle positions, the scores, the rally and tick counters to
their initial values; but it is not a strict no-op: the pause flag is
forced to `false` (initially `true`, the menu), and the ball direction is
re-randomized, its vertical component staying strictly below the initial
`0.01` in magnitude for every admissible draw of the bounded random
angle. -/
theorem game_reset_restores_initial (w : ℤ) (angle : ℝ) (coin : Bool)
    (h : |angle| ≤ Real.pi / 4) :
    (Game.reset angle coin (Game.init_state w)).pos = (Game.init_state w).pos ∧
      (Game.reset angle coin (Game.init_state w)).paddle1 = (Game.init_state w).paddle1 ∧
      (Game.reset angle coin (Game.init_state w)).paddle2 = (Game.init_state w).paddle2 ∧
      (Game.reset angle coin (Game.init_state w)).score = (Game.init_state w).score ∧
      (Game.reset angle coin (Game.init_state w)).rally_count = 0 ∧
      (Game.reset angle coin (Game.init_state w)).time_elapsed = 0 ∧
      (Game.reset angle coin (Game.init_state w)).paused = false ∧
      |(Game.reset angle coin (Game.init_state w)).dir.2| < 0.01 ∧
      (Game.reset angle coin (Game.init_state w)).dir.2 ≠ (Game.init_state w).dir.2 := by
  obtain ⟨ha1, ha2⟩ := abs_le.mp h
  have hpi := Real.pi_pos
  have hcos : 0 < Real.cos angle := by
    apply Real.cos_pos_of_mem_Ioo
    rw [Set.mem_Ioo]
    constructor <;> linarith
  have hs1 : |Real.sin angle| < 1 := by
    by_contra hcon
    push_neg at hcon
    have hsq : 1 ≤ Real.sin angle ^ 2 := by
      nlinarith [sq_abs (Real.sin angle), abs_nonneg (Real.sin angle)]
    nlinarith [Real.sin_sq_add_cos_sq angle, mul_pos hcos hcos]
  have habs : |(Game.reset angle coin (Game.init_state w)).dir.2| < 0.01 := by
    show |(0.01 : ℝ) * Real.sin angle| < 0.01
    rw [abs_mul, show |(0.01 : ℝ)| = 0.01 by norm_num]
    nlinarith [abs_nonneg (Real.sin angle)]
  refine ⟨rfl, rfl, rfl, rfl, rfl, rfl, rfl, habs, ?_⟩
  intro heq
  rw [heq] at habs
  rw [show ((Game.init_state w).dir.2 : ℝ) = 0.01 from rfl,
    abs_of_pos (by norm_num : (0 : ℝ) < 0.01)] at habs
  exact lt_irrefl _ habs

/-- Witness for the amended C8: the concrete draw `angle = 0`,
`coin = true`. -/
theorem game_reset_restores_initial_witness :
    (Game.reset 0 true (Game.init_state 11)).pos = (Game.init_state 11).pos ∧
      (Game.reset 0 true (Game.init_state 11)).paused = false ∧
      |(Game.reset 0 true (Game.init_state 11)).dir.2| < 0.01 := by
  have h := game_reset_restores_initial 11 0 true
    (by rw [abs_zero]; positivity)
  exact ⟨h.1, h.2.2.2.2.2.2.1, h.2.2.2.2.2.2.2.1⟩

/-! ### AI controller lemmas -/

theorem update_gated (settings : AIController.AISettings) (yLen : ℚ)
    (bp bd : ℚ × ℚ) (rnd : AIController.AIRand) (st : AIController.AIState)
    (h : (st.frame_counter + 1) % settings.reaction_delay ≠ 0) :
    AIController.update settings yLen bp bd rnd st =
      { st with frame_counter := st.frame_counter + 1 } := by
  unfold AIController.update
  dsimp only
  rw [if_pos h]

theorem run_updates_gated (settings : AIController.AISettings) (yLen : ℚ)
    (l : List AIController.AIInput) : ∀ st : AIController.AIState,
    (∀ i, i < l.length → (st.frame_counter + i + 1) % settings.reaction_delay ≠ 0) →
    AIController.run_updates settings yLen l st =
      { st with frame_counter := st.frame_counter + l.length } := by
  induction l with
  | nil =>
      intro st _
      rfl
  | cons i is ih =>
      intro st h
      have h0 : (st.frame_counter + 1) % settings.reaction_delay ≠ 0 := by
        simpa using h 0 (by simp)
      show AIController.run_updates settings yLen is
          (AIController.update settings yLen i.ball_pos i.ball_dir i.rnd st) = _
      rw [update_gated settings yLen i.ball_pos i.ball_dir i.rnd st h0]
      rw [ih { st with frame_counter := st.frame_counter + 1 } ?_]
      · have harg : st.frame_counter + 1 + is.length =
            st.frame_counter + (i :: is).length := by
          simp only [List.length_cons]
          omega
        dsimp only
        rw [harg]
      · intro j hj
        dsimp only
        have harg : st.frame_counter + 1 + j + 1 = st.frame_counter + (j + 1) + 1 := by
          omega
        rw [harg]
        exact h (j + 1) (by simp only [List.length_cons]; omega)

theorem run_updates_append (settings : AIController.AISettings) (yLen : ℚ)
    (l1 l2 : List AIController.AIInput) : ∀ st : AIController.AIState,
    AIController.run_updates settings yLen (l1 ++ l2) st =
      AIController.run_updates settings yLen l2
        (AIController.run_updates settings yLen l1 st) := by
  induction l1 with
  | nil => intro st; rfl
  | cons i is ih =>
      intro st
      exact ih _

theorem move_toward_center_demo :
    AIController.move_toward_center AIController.MEDIUM (2/5) (9/10, 1/2) =
      (9/10, 19/40) := by
  have habs2 : |(0 : ℚ) - 1/2| = 1/2 := by
    rw [show (0 : ℚ) - 1/2 = -(1/2) by ring, abs_neg,
      abs_of_nonneg (by norm_num : (0 : ℚ) ≤ 1/2)]
  norm_num [AIController.move_toward_center, AIController.clamp_position,
    AIController.MEDIUM, habs2, min_def, max_def,
    abs_of_nonneg (by norm_num : (0 : ℚ) ≤ 1/2)]

/-- C9: an `update` call whose incremented frame counter is not a multiple
of the active profile's `reaction_delay` only increments the counter — the
paddle (and all cached prediction state) is untouched; consequently, with
`reaction_delay = 8` and a fresh counter, any run of at most 7 `update`
calls leaves the paddle position unchanged, while an 8th call can move the
paddle (shown on a concrete run). -/
theorem ai_moves_only_on_reaction_ticks (settings : AIController.AISettings)
    (yLen : ℚ) (bp bd : ℚ × ℚ) (rnd : AIController.AIRand)
    (st st0 : AIController.AIState) (inputs : List AIController.AIInput)
    (h8 : settings.reaction_delay = 8) (h0 : st0.frame_counter = 0)
    (hlen : inputs.length ≤ 7) :
    ((st.frame_counter + 1) % settings.reaction_delay ≠ 0 →
      AIController.update settings yLen bp bd rnd st =
        { st with frame_counter := st.frame_counter + 1 }) ∧
    (AIController.run_updates settings yLen inputs st0).paddle = st0.paddle ∧
    (AIController.run_updates AIController.MEDIUM (2/5)
        (List.replicate 8 away_input) demo_ai).paddle ≠ demo_ai.paddle := by
  refine ⟨fun h => update_gated settings yLen bp bd rnd st h, ?_, ?_⟩
  · have hg : ∀ i, i < inputs.length →
        (st0.frame_counter + i + 1) % settings.reaction_delay ≠ 0 := by
      intro i hi
      rw [h0, h8]
      omega
    rw [run_updates_gated settings yLen inputs st0 hg]
  · have h7 : AIController.run_updates AIController.MEDIUM (2/5)
        (List.replicate 7 away_input) demo_ai =
        { demo_ai with frame_counter := demo_ai.frame_counter + 7 } := by
      apply run_updates_gated
      intro i hi
      simp only [List.length_replicate] at hi
      simp only [demo_ai, AIController.MEDIUM]
      omega
    have hstep : (AIController.run_updates AIController.MEDIUM (2/5) [away_input]
        { demo_ai with frame_counter := demo_ai.frame_counter + 7 }).paddle =
        (9/10, 19/40) := by
      show (AIController.update AIController.MEDIUM (2/5) away_input.ball_pos
          away_input.ball_dir away_input.rnd
          { demo_ai with frame_counter := demo_ai.frame_counter + 7 }).paddle =
        (9/10, 19/40)
      unfold AIController.update
      dsimp only [demo_ai, away_input]
      rw [if_neg (by norm_num [AIController.MEDIUM])]
      rw [if_neg (by norm_num)]
      dsimp only
      exact move_toward_center_demo
    rw [show (List.replicate 8 away_input) =
        List.replicate 7 away_input ++ [away_input] from List.replicate_succ' 7 away_input,
      run_updates_append, h7, hstep]
    intro heq
    have h2 := congrArg Prod.snd heq
    simp only [demo_ai] at h2
    norm_num at h2

/-- Witness for C9: the medium profile (`reaction_delay = 8`), a fresh AI
state, and a single update with the ball receding. -/
theorem ai_moves_only_on_reaction_ticks_witness :
    (AIController.run_updates AIController.MEDIUM (2/5) [away_input] demo_ai).paddle =
      demo_ai.paddle :=
  (ai_moves_only_on_reaction_ticks AIController.MEDIUM (2/5) (0, 0) (0, 0)
      { accuracy_roll := 0, error_roll := 0 } demo_ai demo_ai [away_input]
      (by decide) (by decide) (by decide)).2.1

end Pong
